import Mathlib

/-!
# Verification of the paradex-dual-taker control loop

Shallow embedding of the dual-account position-balancing and trade-triggering
control loop of the repository (src/main.py `monitor_spread`, src/order_guard.py
`OrderGuard`, src/exit_handler.py `ExitReason`), together with theorems settling
the frozen specification claims.

Conventions:
* Python floats are modelled as rationals (ℚ); the constants 0.01, 0.05 appear
  as 1/100, 1/20.
* Nullable readings (`None` in Python) are modelled with `Option`.
* Timestamps are integers (seconds); `datetime.now() - timedelta(hours=24)`
  becomes `now - 86400`.
* File I/O of the order guard is modelled as an optional store
  (`none` = missing/corrupt file) plus explicit `readOk`/`writeOk` flags for
  the swallowed `IOError`/`JSONDecodeError` branches.
-/

/-- Position direction as reported by the account state reader
(src/main.py `get_position_direction_and_balance`): "long", "short" or "none". -/
inductive Direction
  | long
  | short
  | none
deriving DecidableEq, Repr

/-- A trade leg action; `skip` models the `None`/skipped leg of close mode. -/
inductive TradeAction
  | buy
  | sell
  | skip
deriving DecidableEq, Repr

/-- Exit reasons, from src/exit_handler.py `ExitReason`. -/
inductive ExitReason
  | userInterrupt
  | feeDetected
  | sessionLimit
  | positionCleared
  | balanceLow
  | positionImbalance
  | manualExit
  | error
  | unknown
deriving DecidableEq, Repr

/-! ## OrderGuard (src/order_guard.py) -/

/-- `OrderGuard._clean_old_orders`: keep only timestamps strictly newer than
`now - 24h` (`ts > cutoff_time`). Timestamps are pre-parsed integers. -/
def clean_old_orders (now : ℤ) (timestamps : List ℤ) : List ℤ :=
  timestamps.filter (fun ts => now - 86400 < ts)

/-- State of an `OrderGuard` instance. `store` is the persisted history file:
`none` models a missing or corrupt file (read degrades to `[]`). -/
structure OrderGuard where
  store : Option (List ℤ)
  session_count : ℕ
  session_limit : ℕ
  safety_threshold : ℕ
  max_orders : ℕ
deriving DecidableEq, Repr

/-- `OrderGuard._read_history`: returns the stored timestamps, or `[]` on any
read failure (missing file, JSON/Key/IO error). `readOk = false` models the
exception branches. -/
def OrderGuard.read_history (readOk : Bool) (g : OrderGuard) : List ℤ :=
  if readOk then g.store.getD [] else []

/-- `OrderGuard._write_history`: replaces the store, or silently does nothing
on `IOError` (`writeOk = false`). -/
def OrderGuard.write_history (writeOk : Bool) (timestamps : List ℤ)
    (g : OrderGuard) : OrderGuard :=
  if writeOk then { g with store := some timestamps } else g

/-- `OrderGuard.add_order`: read the history, append the current timestamp,
clean expired entries, write the result back, then increment the in-memory
session counter. -/
def OrderGuard.add_order (now : ℤ) (readOk writeOk : Bool)
    (g : OrderGuard) : OrderGuard :=
  let timestamps := g.read_history readOk
  let timestamps := timestamps ++ [now]
  let active_timestamps := clean_old_orders now timestamps
  let g1 := g.write_history writeOk active_timestamps
  { g1 with session_count := g1.session_count + 1 }

/-- `OrderGuard.get_active_count`: read, clean, and rewrite the store only when
cleaning changed its length; return the active count.  The third component
records whether `_write_history` was invoked. -/
def OrderGuard.get_active_count (now : ℤ) (readOk writeOk : Bool)
    (g : OrderGuard) : ℕ × OrderGuard × Bool :=
  let timestamps := g.read_history readOk
  let active_timestamps := clean_old_orders now timestamps
  if active_timestamps.length ≠ timestamps.length then
    (active_timestamps.length, g.write_history writeOk active_timestamps, true)
  else
    (active_timestamps.length, g, false)

/-- `OrderGuard.should_exit`: `session_count >= session_limit`. -/
def OrderGuard.should_exit (g : OrderGuard) : Bool :=
  g.session_limit ≤ g.session_count

/-- A sequence of `add_order` calls, each with its own clock reading and I/O
outcome flags. -/
def run_add_orders (calls : List (ℤ × Bool × Bool)) (g : OrderGuard) : OrderGuard :=
  calls.foldl (fun g c => g.add_order c.1 c.2.1 c.2.2) g

/-! ### Helper lemmas -/

theorem clean_old_orders_idem (now : ℤ) (l : List ℤ) :
    clean_old_orders now (clean_old_orders now l) = clean_old_orders now l := by
  simp [clean_old_orders, List.filter_filter]

/-- C7 counterexample input: a store holding a single expired timestamp. -/
def c7Guard : OrderGuard :=
  { store := some [0], session_count := 0, session_limit := 300,
    safety_threshold := 950, max_orders := 1000 }

/-- **C7 (counterexample).** The claim asserts that `add_order` does not prune
on write, so that the persisted store after the call is the previous history
plus the new timestamp.  With one expired entry `0` in the store and
`now = 200000`, `add_order` prunes the expired entry: the resulting store is
`[200000]`, not `[0, 200000]`. -/
theorem c7_add_order_prunes_on_write :
    (c7Guard.add_order 200000 true true).store = some [200000] ∧
    (c7Guard.add_order 200000 true true).store ≠ some ([0] ++ [200000]) := by
  constructor <;> decide

/-- **C7 (amended).** `add_order` appends the current timestamp, prunes entries
older than 24 hours on this same write (the persisted store becomes the pruned
previous history plus the new timestamp, which always survives its own
cleaning), and increments the in-memory session counter by one regardless of
I/O outcome. -/
theorem c7_add_order_spec (now : ℤ) (g : OrderGuard) :
    (g.add_order now true true).store =
      some (clean_old_orders now (g.store.getD [] ++ [now])) ∧
    (∀ readOk writeOk : Bool,
      (g.add_order now readOk writeOk).session_count = g.session_count + 1) := by
  refine ⟨?_, ?_⟩
  · simp [OrderGuard.add_order, OrderGuard.read_history, OrderGuard.write_history]
  · intro readOk writeOk
    simp only [OrderGuard.add_order, OrderGuard.write_history]
    split <;> rfl

/-- **C9 (confirmed).** Calling `get_active_count` twice with the clock held
fixed and no intervening `add_order` yields the same count, leaves the guard
state unchanged, and the second call performs no persisted rewrite: pruning is
idempotent. -/
theorem c9_get_active_count_idem (now : ℤ) (g : OrderGuard) :
    ((g.get_active_count now true true).2.1.get_active_count now true true).1 =
      (g.get_active_count now true true).1 ∧
    ((g.get_active_count now true true).2.1.get_active_count now true true).2.1 =
      (g.get_active_count now true true).2.1 ∧
    ((g.get_active_count now true true).2.1.get_active_count now true true).2.2 =
      false := by
  unfold OrderGuard.get_active_count
  simp only [OrderGuard.read_history, OrderGuard.write_history, if_pos]
  by_cases h : (clean_old_orders now (g.store.getD [])).length =
      (g.store.getD []).length
  · simp [h, if_neg]
  · simp [h, clean_old_orders_idem]

/-- **C10 (confirmed).** The in-memory session counter equals the number of
`add_order` calls made since process start, independent of persistence
outcomes: each call increments it by exactly one even when reading or writing
the history file fails. -/
theorem c10_session_count_counts_calls (calls : List (ℤ × Bool × Bool))
    (g : OrderGuard) :
    (run_add_orders calls g).session_count = g.session_count + calls.length := by
  induction calls generalizing g with
  | nil => simp [run_add_orders]
  | cons c rest ih =>
      have hstep : ∀ h : OrderGuard,
          (h.add_order c.1 c.2.1 c.2.2).session_count = h.session_count + 1 := by
        intro h
        simp only [OrderGuard.add_order, OrderGuard.write_history]
        split <;> rfl
      calc (run_add_orders (c :: rest) g).session_count
          = (run_add_orders rest (g.add_order c.1 c.2.1 c.2.2)).session_count := by
            simp [run_add_orders, List.foldl_cons]
        _ = (g.add_order c.1 c.2.1 c.2.2).session_count + rest.length := ih _
        _ = g.session_count + 1 + rest.length := by rw [hstep]
        _ = g.session_count + (c :: rest).length := by
            simp [List.length_cons]; ring

/-! ## Spotter: two-stage debounce (src/main.py `monitor_spread`, phase 1) -/

/-- Outcome of the per-iteration Spotter phase. `balanceAttempt` is the only
outcome in which `_balance_positions` (the corrective-order routine) is
invoked; `skipIteration` models the `continue` after a failed second read;
`proceed` falls through to the rotation / Sniper stage of the same
iteration. -/
inductive SpotterOutcome
  | balanceAttempt
  | skipIteration
  | proceed
deriving DecidableEq, Repr

/-- The Spotter double-check debounce: from a first snapshot of the two
positions (a failed or exception read contributes `0`), compute
`diff = |pos_a - pos_b|`; if `diff > 0.01`, wait 2s and take a second snapshot
(`retry = none` models a raised second read); only if the second `diff` also
exceeds 0.01 enter correction, otherwise treat the first reading as UI lag and
fall through. -/
def spotter_step (posA posB : Option ℚ)
    (retry : Option (Option ℚ × Option ℚ)) : SpotterOutcome :=
  let a := posA.getD 0
  let b := posB.getD 0
  let diff := |a - b|
  if diff > 1/100 then
    match retry with
    | Option.none => SpotterOutcome.skipIteration
    | some (ra, rb) =>
        let a2 := ra.getD 0
        let b2 := rb.getD 0
        let diff2 := |a2 - b2|
        if diff2 > 1/100 then SpotterOutcome.balanceAttempt
        else SpotterOutcome.proceed
  else SpotterOutcome.proceed

/-- **C4 (confirmed).** If the first imbalance reading exceeds epsilon
(0.01 BTC) but the second reading taken after the settle delay does not, the
balancer is not invoked (no corrective order is issued) and the iteration
falls through to normal Sniper operation. -/
theorem c4_debounce_no_false_correction (posA posB ra rb : Option ℚ)
    (h1 : |posA.getD 0 - posB.getD 0| > 1/100)
    (h2 : ¬ (|ra.getD 0 - rb.getD 0| > 1/100)) :
    spotter_step posA posB (some (ra, rb)) = SpotterOutcome.proceed := by
  simp only [spotter_step, if_pos h1, if_neg h2]

/-- **C4 (witness).** Scenario C of the spec: first read A = 0.08, B = 0.03
(diff 0.05 > 0.01); second read A = 0.08, B = 0.075 (diff 0.005 ≤ 0.01):
no corrective order. -/
theorem c4_debounce_witness :
    spotter_step (some (8/100)) (some (3/100))
      (some (some (8/100), some (3/40))) = SpotterOutcome.proceed :=
  c4_debounce_no_false_correction (some (8/100)) (some (3/100))
    (some (8/100)) (some (3/40))
    (by
      show (1:ℚ)/100 < |(some ((8:ℚ)/100)).getD 0 - (some ((3:ℚ)/100)).getD 0|
      rw [Option.getD_some, Option.getD_some,
        show (8:ℚ)/100 - 3/100 = 1/20 by norm_num, abs_of_pos (by norm_num)]
      norm_num)
    (by
      rw [not_lt, Option.getD_some, Option.getD_some,
        show (8:ℚ)/100 - 3/40 = 1/200 by norm_num, abs_of_pos (by norm_num)]
      norm_num)

/-! ## Sniper: trigger gate (src/main.py `monitor_spread`, lines 2677-2721) -/

/-- The Sniper trigger gate.  `spread` is the middle-box spread reading
(`None` on failure); `reading` is `get_order_book_with_depth`'s result:
`none` for a total failure (`(None, None, None, None)`), otherwise
`(ask_price, bid_price, ask_size, bid_size)` with a size of `-1` marking a
failed size read.  Returns `true` exactly when the loop proceeds to order
placement: spread non-null, `≥ 0` and `< spread_threshold`; prices non-null;
and the depth check passes (either size `-1` passes aggressively, otherwise
both sizes must reach `min_depth`). -/
def sniper_gate (spread_threshold min_depth : ℚ) (spread : Option ℚ)
    (reading : Option (ℚ × ℚ × ℚ × ℚ)) : Bool :=
  match spread with
  | Option.none => false
  | some s =>
    if 0 ≤ s ∧ s < spread_threshold then
      match reading with
      | Option.none => false
      | some (_, _, ask_size, bid_size) =>
        if ask_size = -1 ∨ bid_size = -1 then true
        else if ask_size < min_depth ∨ bid_size < min_depth then false
        else true
    else false

/-- One side of the depth condition exactly as the claim words it: the depth
on that side is an explicit value `≥ min_depth`, or a failed reading
(size `-1`, treated as a pass). -/
def side_depth_ok (min_depth sz : ℚ) : Bool :=
  sz = -1 ∨ min_depth ≤ sz

/-- The gating condition as the claim states it (claim-side definition, used
only to compare with `sniper_gate`): spread non-null, `≥ 0`, below threshold,
and the per-side depth condition holds on both sides. -/
def sniper_gate_claimed (spread_threshold min_depth : ℚ) (spread : Option ℚ)
    (reading : Option (ℚ × ℚ × ℚ × ℚ)) : Bool :=
  match spread, reading with
  | some s, some (_, _, ask_size, bid_size) =>
      decide (0 ≤ s) && decide (s < spread_threshold) &&
      side_depth_ok min_depth ask_size && side_depth_ok min_depth bid_size
  | _, _ => false

/-- **C5 (counterexample).** With threshold 1, `min_depth = 0.03`, spread 0,
valid prices, `ask_size = -1` (failed) and `bid_size = 0.01` (an explicit
reading below the minimum), the code fires the trade — the `-1` on one side
short-circuits the whole depth check — while the claim requires the explicit
low `bid_size` to block it. -/
theorem c5_gate_counterexample :
    sniper_gate 1 (3/100) (some 0) (some (50000, 49999, -1, 1/100)) = true ∧
    sniper_gate_claimed 1 (3/100) (some 0) (some (50000, 49999, -1, 1/100)) =
      false := by
  constructor
  · simp [sniper_gate]
  · simp [sniper_gate_claimed, side_depth_ok]
    norm_num

/-- **C5 (amended).** A paired trade is fired iff the spread reading is
non-null, `≥ 0` and below the threshold, the depth reading is not a total
failure (prices present), and either at least one size reading failed
(`-1`, which bypasses the depth check for both sides) or both explicit sizes
reach the configured minimum. -/
theorem c5_gate_iff (spread_threshold min_depth : ℚ) (spread : Option ℚ)
    (reading : Option (ℚ × ℚ × ℚ × ℚ)) :
    sniper_gate spread_threshold min_depth spread reading = true ↔
      (∃ s, spread = some s ∧ 0 ≤ s ∧ s < spread_threshold) ∧
      (∃ a b ask_size bid_size,
        reading = some (a, b, ask_size, bid_size) ∧
        (ask_size = -1 ∨ bid_size = -1 ∨
          (min_depth ≤ ask_size ∧ min_depth ≤ bid_size))) := by
  cases spread with
  | none => simp [sniper_gate]
  | some s =>
    cases reading with
    | none => simp [sniper_gate]
    | some q =>
      obtain ⟨a, b, ask_size, bid_size⟩ := q
      show (if 0 ≤ s ∧ s < spread_threshold then
              (if ask_size = -1 ∨ bid_size = -1 then true
               else if ask_size < min_depth ∨ bid_size < min_depth then false
               else true)
            else false) = true ↔ _
      constructor
      · intro h
        by_cases hs : 0 ≤ s ∧ s < spread_threshold
        · rw [if_pos hs] at h
          refine ⟨⟨s, rfl, hs.1, hs.2⟩, a, b, ask_size, bid_size, rfl, ?_⟩
          by_cases hf : ask_size = -1 ∨ bid_size = -1
          · rcases hf with h1 | h1
            · exact Or.inl h1
            · exact Or.inr (Or.inl h1)
          · rw [if_neg hf] at h
            by_cases hlow : ask_size < min_depth ∨ bid_size < min_depth
            · rw [if_pos hlow] at h
              exact absurd h (by simp)
            · push_neg at hlow
              exact Or.inr (Or.inr ⟨hlow.1, hlow.2⟩)
        · rw [if_neg hs] at h
          exact absurd h (by simp)
      · rintro ⟨⟨s1, hs1, h0, hlt⟩, a1, b1, as1, bs1, hr, hd⟩
        injection hs1 with hs1
        subst hs1
        simp only [Option.some.injEq, Prod.mk.injEq] at hr
        obtain ⟨rfl, rfl, rfl, rfl⟩ := hr
        rw [if_pos ⟨h0, hlt⟩]
        by_cases hf : ask_size = -1 ∨ bid_size = -1
        · rw [if_pos hf]
        · rw [if_neg hf]
          push_neg at hf
          rcases hd with h1 | h1 | ⟨h1, h2⟩
          · exact absurd h1 hf.1
          · exact absurd h1 hf.2
          · rw [if_neg (by push_neg; exact ⟨h1, h2⟩)]

/-! ## Per-mode action mapping (src/main.py `monitor_spread`, lines 2749-2908) -/

/-- Close-mode action for one account (lines 2846-2874): skip if the cached
position is below 0.01 BTC (micro-position tolerance), else sell a long /
buy a short; an unknown direction is also skipped. -/
def close_action (pos : ℚ) (dir : Direction) : TradeAction :=
  if pos < 1/100 then TradeAction.skip
  else
    match dir with
    | Direction.long => TradeAction.sell
    | Direction.short => TradeAction.buy
    | Direction.none => TradeAction.skip

/-- The close-mode action exactly as the spec's table words it (claim-side
definition, compared with `close_action`): sell if long, buy if short, skip if
position < epsilon or direction unknown. -/
def spec_close_action (pos : ℚ) (dir : Direction) : TradeAction :=
  if pos < 1/100 ∨ dir = Direction.none then TradeAction.skip
  else
    match dir with
    | Direction.long => TradeAction.sell
    | Direction.short => TradeAction.buy
    | Direction.none => TradeAction.skip

/-- The pair of leg actions submitted for a trade in the given mode, or `none`
when no order is placed at all: mode 1 is A-buy/B-sell, mode 2 is A-sell/B-buy,
mode 3 computes both close actions and skips the whole trade when both legs
are skipped (`if skip_a and skip_b: continue`); an unknown mode places
nothing.  Inside a placed mode-3 pair, a `skip` component is the
`asyncio.sleep(0)` placeholder task. -/
def mode_orders (mode : ℕ) (posA posB : ℚ) (dirA dirB : Direction) :
    Option (TradeAction × TradeAction) :=
  if mode = 1 then some (TradeAction.buy, TradeAction.sell)
  else if mode = 2 then some (TradeAction.sell, TradeAction.buy)
  else if mode = 3 then
    let aA := close_action posA dirA
    let aB := close_action posB dirB
    if aA = TradeAction.skip ∧ aB = TradeAction.skip then Option.none
    else some (aA, aB)
  else Option.none

/-- **C6 (confirmed).** For every trade mode and every (position, direction)
pair per account, the computed per-account action equals the spec's mapping:
mode 1 (OpenA) gives A buy / B sell, mode 2 (OpenB) gives A sell / B buy, and
close mode applies, independently per account, sell-if-long / buy-if-short /
skip-if-dust-or-unknown; when both close legs are skipped no order is
placed. -/
theorem c6_mode_mapping (posA posB : ℚ) (dirA dirB : Direction) :
    mode_orders 1 posA posB dirA dirB =
      some (TradeAction.buy, TradeAction.sell) ∧
    mode_orders 2 posA posB dirA dirB =
      some (TradeAction.sell, TradeAction.buy) ∧
    close_action posA dirA = spec_close_action posA dirA ∧
    close_action posB dirB = spec_close_action posB dirB ∧
    mode_orders 3 posA posB dirA dirB =
      (if close_action posA dirA = TradeAction.skip ∧
          close_action posB dirB = TradeAction.skip then Option.none
       else some (close_action posA dirA, close_action posB dirB)) := by
  have key : ∀ (p : ℚ) (d : Direction),
      close_action p d = spec_close_action p d := by
    intro p d
    cases d <;> by_cases hp : p < 1/100 <;>
      simp [close_action, spec_close_action, hp]
  exact ⟨rfl, rfl, key posA dirA, key posB dirB, rfl⟩

/-! ## Rotation state machine (src/main.py `monitor_spread`, lines 2553-2599)
and the in-trigger close-complete switch (lines 2800-2817) -/

/-- Mode-rotation state: the active trade mode (1 = OpenA, 2 = OpenB,
3 = Close) and the remembered last open mode. -/
structure RotationState where
  trade_mode : ℕ
  last_open_mode : ℕ
deriving DecidableEq, Repr

/-- The auto-rotation state machine step, run each iteration when auto
rotation is enabled and the Spotter flag is clear.  Cached positions (`none` or
a falsy `0` read as `0`) give the larger single-account magnitude; an open
mode at or above `target_position` switches to Close remembering the open
mode; Close below the 0.01 dust threshold switches to the *other* open mode
(`2 if last_open_mode == 1 else 1`) and updates the memory. -/
def rotation_step (target_position : ℚ) (posA posB : Option ℚ)
    (s : RotationState) : RotationState :=
  let a := |posA.getD 0|
  let b := |posB.getD 0|
  let max_single := max a b
  if s.trade_mode = 1 ∨ s.trade_mode = 2 then
    if max_single ≥ target_position then
      { trade_mode := 3, last_open_mode := s.trade_mode }
    else s
  else if s.trade_mode = 3 then
    if max_single < 1/100 then
      let new_mode := if s.last_open_mode = 1 then 2 else 1
      { trade_mode := new_mode, last_open_mode := new_mode }
    else s
  else s

/-- The close-complete switch inside the Close-mode trigger block
(lines 2800-2817): when auto rotation is enabled and the total remaining
position is below 0.01 BTC, the code sets `trade_mode = 1` unconditionally,
leaving `last_open_mode` untouched. -/
def close_complete_auto_switch (s : RotationState) : RotationState :=
  { s with trade_mode := 1 }

/-- **C8 (counterexample).** After a cycle that opened with OpenA
(`last_open_mode = 1`), the in-trigger close-complete path switches the mode
back to 1 — the *same* open mode as remembered — contradicting the claim that
the transition out of Close never returns to the same open mode. -/
theorem c8_close_switch_repeats_mode :
    (close_complete_auto_switch (RotationState.mk 3 1)).trade_mode =
      (RotationState.mk 3 1).last_open_mode := rfl

/-- **C8 (amended).** The rotation state machine step itself does alternate:
from Close mode with the larger single-account magnitude below 0.01 BTC and a
valid remembered open mode, the new mode is an open mode different from the
remembered one, and the memory is updated to the new mode.  (Only the separate
close-complete path inside the trigger block hard-codes mode 1.) -/
theorem c8_rotation_step_alternates (target_position : ℚ)
    (posA posB : Option ℚ) (s : RotationState)
    (h3 : s.trade_mode = 3)
    (hm : max |posA.getD 0| |posB.getD 0| < 1/100)
    (ho : s.last_open_mode = 1 ∨ s.last_open_mode = 2) :
    (rotation_step target_position posA posB s).trade_mode ≠
      s.last_open_mode ∧
    ((rotation_step target_position posA posB s).trade_mode = 1 ∨
      (rotation_step target_position posA posB s).trade_mode = 2) ∧
    (rotation_step target_position posA posB s).last_open_mode =
      (rotation_step target_position posA posB s).trade_mode := by
  have hne : ¬ (s.trade_mode = 1 ∨ s.trade_mode = 2) := by
    rw [h3]; rintro (h | h) <;> simp at h
  have hstep : rotation_step target_position posA posB s =
      { trade_mode := (if s.last_open_mode = 1 then 2 else 1),
        last_open_mode := (if s.last_open_mode = 1 then 2 else 1) } := by
    simp only [rotation_step]
    rw [if_neg hne, if_pos h3, if_pos hm]
  rcases ho with h1 | h1 <;> simp [hstep, h1]

/-- **C8 (witness).** With cached positions 0.002 and 0, Close mode and
`last_open_mode = 2`, the state machine switches to mode 1, updating the
memory. -/
theorem c8_rotation_step_witness :
    (rotation_step (1/20) (some (1/500)) (some 0)
      (RotationState.mk 3 2)).trade_mode ≠
        (RotationState.mk 3 2).last_open_mode ∧
    ((rotation_step (1/20) (some (1/500)) (some 0)
      (RotationState.mk 3 2)).trade_mode = 1 ∨
     (rotation_step (1/20) (some (1/500)) (some 0)
      (RotationState.mk 3 2)).trade_mode = 2) ∧
    (rotation_step (1/20) (some (1/500)) (some 0)
      (RotationState.mk 3 2)).last_open_mode =
        (rotation_step (1/20) (some (1/500)) (some 0)
          (RotationState.mk 3 2)).trade_mode :=
  c8_rotation_step_alternates (1/20) (some (1/500)) (some 0)
    (RotationState.mk 3 2) rfl
    (by
      rw [Option.getD_some, Option.getD_some, abs_of_pos (by norm_num),
        abs_of_nonneg (le_refl 0)]
      norm_num)
    (Or.inr rfl)

/-! ## Paired-trade result handling (src/main.py `monitor_spread`,
lines 2923-2958) -/

/-- Counters touched by the success branch of a paired trade. -/
structure TradeCycleState where
  trade_count : ℕ
  guard : OrderGuard
  auto_mode : Bool
  cycle_trade_count : ℕ
deriving DecidableEq, Repr

/-- Handling of the two concurrently gathered leg results: an exception leg
counts as a failed leg (`False`).  If at least one leg succeeded, the trade
counter is incremented (`increment_trade_count`), the sliding-window counter
records the order (`order_guard.add_order`), the sleep-mode cycle counter is
bumped in auto mode, and the settle-then-resnapshot sequence runs (the second
component `true`: the 5 s settle wait followed by a fresh concurrent query of
both accounts' position, direction and balance).  If both legs failed, only a
warning is logged: no state mutation, no resnapshot. -/
def handle_trade_result (succA succB : Bool) (now : ℤ) (readOk writeOk : Bool)
    (st : TradeCycleState) : TradeCycleState × Bool :=
  if succA || succB then
    ({ st with
        trade_count := st.trade_count + 1,
        guard := st.guard.add_order now readOk writeOk,
        cycle_trade_count :=
          if st.auto_mode then st.cycle_trade_count + 1
          else st.cycle_trade_count },
      true)
  else (st, false)

/-- **C2 (confirmed).** When exactly one of the two legs succeeds, the session
still increments its trade counter and the rate-limiter's session record, and
proceeds to the post-trade settle-then-resnapshot sequence. -/
theorem c2_partial_success_is_progress (succA succB : Bool) (now : ℤ)
    (readOk writeOk : Bool) (st : TradeCycleState)
    (h : succA ≠ succB) :
    (handle_trade_result succA succB now readOk writeOk st).1.trade_count =
      st.trade_count + 1 ∧
    (handle_trade_result succA succB now readOk writeOk st).1.guard.session_count =
      st.guard.session_count + 1 ∧
    (handle_trade_result succA succB now readOk writeOk st).2 = true := by
  have hor : (succA || succB) = true := by
    cases succA <;> cases succB <;> simp_all
  have hgs : ∀ g : OrderGuard,
      (g.add_order now readOk writeOk).session_count = g.session_count + 1 := by
    intro g
    simp only [OrderGuard.add_order, OrderGuard.write_history]
    split <;> rfl
  simp [handle_trade_result, hor, hgs]

/-- **C2 (witness).** Leg A succeeds, leg B fails: counters advance and the
resnapshot sequence runs. -/
theorem c2_partial_success_witness :
    (handle_trade_result true false 0 true true
      (TradeCycleState.mk 0 c7Guard false 0)).1.trade_count = 0 + 1 ∧
    (handle_trade_result true false 0 true true
      (TradeCycleState.mk 0 c7Guard false 0)).1.guard.session_count =
        (TradeCycleState.mk 0 c7Guard false 0).guard.session_count + 1 ∧
    (handle_trade_result true false 0 true true
      (TradeCycleState.mk 0 c7Guard false 0)).2 = true :=
  c2_partial_success_is_progress true false 0 true true
    (TradeCycleState.mk 0 c7Guard false 0) (by decide)

/-! ## Post-trade checks (src/main.py `monitor_spread`, lines 2985-3116) -/

/-- State visible to the post-trade check sequence, after the settle wait and
the fresh resnapshot.  `position_a`/`position_b`/`balance_a`/`balance_b` are
the freshly queried values (`none` for a failed leg of the query);
`fee_is_zero` is the outcome of `check_trading_fee` if it is consulted. -/
structure PostTradeState where
  position_a : Option ℚ
  position_b : Option ℚ
  balance_a : Option ℚ
  balance_b : Option ℚ
  trade_mode : ℕ
  min_available_balance : ℚ
  enable_auto_rotation : Bool
  trade_count : ℕ
  force_exit_trades : ℕ
  guard : OrderGuard
  fee_check_interval : ℕ
  last_fee_check_count : ℕ
  fee_is_zero : Bool

/-- Outcome of one pass over the post-trade checks: either the loop continues,
or `monitor_spread` returns, terminating the session.  On termination,
`reason` is the `ExitReason` passed to `graceful_exit`, or `Option.none` when
the code returns without calling `graceful_exit` at all (no exit reason is
recorded). -/
inductive LoopOutcome
  | proceed
  | terminate (reason : Option ExitReason)
deriving DecidableEq, Repr

/-- A fresh balance reading below the configured floor (`None` readings are
not compared). -/
def balance_below (floor : ℚ) (bal : Option ℚ) : Prop :=
  match bal with
  | Option.none => False
  | some v => v < floor

instance (floor : ℚ) (bal : Option ℚ) : Decidable (balance_below floor bal) := by
  cases bal with
  | none => exact isFalse (fun h => h)
  | some v => exact inferInstanceAs (Decidable (v < floor))

/-- The post-trade imbalance-ceiling test (lines 2985-2991): only when both
fresh positions are non-null, compare `abs(abs(pos_a) - abs(pos_b))` against
the hard ceiling 0.05 BTC. -/
def imbalance_exceeded (pa pb : Option ℚ) : Prop :=
  match pa, pb with
  | some a, some b => |(|a|) - (|b|)| > 1/20
  | _, _ => False

instance (pa pb : Option ℚ) : Decidable (imbalance_exceeded pa pb) := by
  cases pa with
  | none => exact isFalse (fun h => h)
  | some a =>
      cases pb with
      | none => exact isFalse (fun h => h)
      | some b => exact inferInstanceAs (Decidable (_ > _))

/-- The post-trade check sequence, in source order: (1) the position-diff
ceiling — a bare `return` with no `graceful_exit` call; (2) the balance floor,
skipped in close mode (mode 3); (3) the manual-mode forced-exit trade cap;
(4) the session cap via `OrderGuard.should_exit`; (5) the periodic fee check;
otherwise the loop continues. -/
def post_trade_checks (s : PostTradeState) : LoopOutcome :=
  if imbalance_exceeded s.position_a s.position_b then
    LoopOutcome.terminate Option.none
  else if s.trade_mode ≠ 3 ∧
      (balance_below s.min_available_balance s.balance_a ∨
       balance_below s.min_available_balance s.balance_b) then
    LoopOutcome.terminate (some ExitReason.balanceLow)
  else if ¬ s.enable_auto_rotation ∧ s.force_exit_trades ≤ s.trade_count then
    LoopOutcome.terminate (some ExitReason.manualExit)
  else if s.guard.should_exit then
    LoopOutcome.terminate (some ExitReason.sessionLimit)
  else if 0 < s.guard.session_count ∧
      s.guard.session_count % s.fee_check_interval = 0 ∧
      s.guard.session_count ≠ s.last_fee_check_count ∧
      s.fee_is_zero = false then
    LoopOutcome.terminate (some ExitReason.feeDetected)
  else LoopOutcome.proceed

/-- C1 failing input: fresh post-trade positions 0.08 and 0.02 BTC
(diff 0.06 > 0.05), with a low balance and an exhausted session cap to show
that neither matters: the imbalance path fires first. -/
def c1State : PostTradeState :=
  { position_a := some (8/100), position_b := some (2/100),
    balance_a := some 0, balance_b := some 5000,
    trade_mode := 1, min_available_balance := 300,
    enable_auto_rotation := true, trade_count := 6, force_exit_trades := 10,
    guard := { store := some [], session_count := 300, session_limit := 300,
               safety_threshold := 950, max_orders := 1000 },
    fee_check_interval := 100, last_fee_check_count := 0, fee_is_zero := true }

/-- **C1 (code evaluated at the failing input).** With a post-trade diff of
0.06 BTC — and regardless of the exhausted session cap and the low balance —
the loop terminates immediately, but the termination records *no* exit
reason: the code returns from `monitor_spread` without calling
`graceful_exit`, so the recorded reason is not `position_imbalance` (that
member of `ExitReason` is never set anywhere in main.py). -/
theorem c1_imbalance_exit_has_no_reason :
    post_trade_checks c1State = LoopOutcome.terminate Option.none ∧
    post_trade_checks c1State ≠
      LoopOutcome.terminate (some ExitReason.positionImbalance) := by
  have hab : |(|(8:ℚ)/100|) - (|(2:ℚ)/100|)| = 3/50 := by
    rw [abs_of_pos (a := (8:ℚ)/100) (by norm_num),
      abs_of_pos (a := (2:ℚ)/100) (by norm_num)]
    rw [show (8:ℚ)/100 - 2/100 = 3/50 by norm_num,
      abs_of_pos (by norm_num)]
  have him : imbalance_exceeded c1State.position_a c1State.position_b := by
    show |(|(8:ℚ)/100|) - (|(2:ℚ)/100|)| > 1/20
    rw [hab]; norm_num
  constructor
  · rw [post_trade_checks, if_pos him]
  · rw [post_trade_checks, if_pos him]
    intro h
    exact Option.noConfusion (LoopOutcome.terminate.inj h)

/-- **C3 (confirmed).** Once the in-memory session counter has reached the
session limit, the post-trade check sequence never lets the loop continue;
and whenever control reaches the session-cap check itself (none of the
earlier checks fired), the session terminates with the session-limit exit
reason, regardless of any other condition's state (the fee check downstream
cannot preempt it). -/
theorem c3_session_cap_hard_stop (s : PostTradeState)
    (h : s.guard.session_limit ≤ s.guard.session_count) :
    post_trade_checks s ≠ LoopOutcome.proceed ∧
    (¬ imbalance_exceeded s.position_a s.position_b →
     ¬ (s.trade_mode ≠ 3 ∧
        (balance_below s.min_available_balance s.balance_a ∨
         balance_below s.min_available_balance s.balance_b)) →
     ¬ (¬ s.enable_auto_rotation ∧ s.force_exit_trades ≤ s.trade_count) →
     post_trade_checks s = LoopOutcome.terminate (some ExitReason.sessionLimit)) := by
  have hexit : s.guard.should_exit = true := by
    simp [OrderGuard.should_exit, h]
  constructor
  · by_cases h1 : imbalance_exceeded s.position_a s.position_b
    · rw [post_trade_checks, if_pos h1]
      intro hc; exact LoopOutcome.noConfusion hc
    · by_cases h2 : s.trade_mode ≠ 3 ∧
          (balance_below s.min_available_balance s.balance_a ∨
           balance_below s.min_available_balance s.balance_b)
      · rw [post_trade_checks, if_neg h1, if_pos h2]
        intro hc; exact LoopOutcome.noConfusion hc
      · by_cases h3 : ¬ s.enable_auto_rotation ∧
            s.force_exit_trades ≤ s.trade_count
        · rw [post_trade_checks, if_neg h1, if_neg h2, if_pos h3]
          intro hc; exact LoopOutcome.noConfusion hc
        · rw [post_trade_checks, if_neg h1, if_neg h2, if_neg h3, if_pos hexit]
          intro hc; exact LoopOutcome.noConfusion hc
  · intro h1 h2 h3
    rw [post_trade_checks, if_neg h1, if_neg h2, if_neg h3, if_pos hexit]

/-- **C3 (witness).** A state with the session cap exhausted and every other
condition quiet terminates with the session-limit reason. -/
theorem c3_session_cap_witness :
    post_trade_checks
      { c1State with position_a := some (1/100), position_b := some (1/100),
                     balance_a := some 5000 } ≠ LoopOutcome.proceed ∧
    post_trade_checks
      { c1State with position_a := some (1/100), position_b := some (1/100),
                     balance_a := some 5000 } =
      LoopOutcome.terminate (some ExitReason.sessionLimit) := by
  have base := c3_session_cap_hard_stop
    { c1State with position_a := some (1/100), position_b := some (1/100),
                   balance_a := some 5000 } (by norm_num [c1State])
  refine ⟨base.1, base.2 ?_ ?_ ?_⟩
  · show ¬ (|(|(1:ℚ)/100|) - (|(1:ℚ)/100|)| > 1/20)
    rw [sub_self, abs_zero]
    norm_num
  · rintro ⟨_, hb | hb⟩
    · revert hb
      show ¬ balance_below 300 (some 5000)
      show ¬ ((5000:ℚ) < 300)
      norm_num
    · revert hb
      show ¬ balance_below 300 (some 5000)
      show ¬ ((5000:ℚ) < 300)
      norm_num
  · rintro ⟨hauto, _⟩
    exact hauto (by norm_num [c1State])
